import Mathlib

/-!
Shallow embedding of the node-webshot-server image store service.

Source files:
  src/api.js          : the core API (store, getStoredImageUrl, checkFileExists,
                        getS3Key, generate, screengrab)
  src/unnamed/part_000: the HTTP route handlers (store, getStoredImage, generate)
    which perform the name and url validation before calling into the API.

External collaborators (S3, the webshot rendering engine, fs, temp) are modelled
as oracles carried in an environment record: the outcome of each collaborator
call is a field of the environment, and the parameters the code passes to a
collaborator are recorded in the outcome traces so theorems can speak about
"what the Renderer or the storage collaborator observed".
-/

namespace WebshotServer

/-- JS falsy test for an optional string parameter (req.param results and
parsed url fields): undefined (none) and the empty string are falsy. -/
def isFalsy (v : Option String) : Bool :=
  match v with
  | none => true
  | some s => s == ""

/-- Options object as built by the HTTP handlers and consumed by api.js
generate: each numeric field is either absent (undefined) or an integer,
userAgent absent or a string, full a boolean (the handler computes
req.param of full compared with the string true). -/
structure RenderOptions where
  width : Option Int
  height : Option Int
  delay : Option Int
  userAgent : Option String
  full : Bool
deriving DecidableEq

/-- JS expression v || d for an integer-or-undefined v: undefined and 0 are
falsy, every other integer (negatives included) is truthy. -/
def jsOrInt (v : Option Int) (d : Int) : Int :=
  match v with
  | none => d
  | some n => if n = 0 then d else n

/-- JS expression v || d for a string-or-undefined v: undefined and the empty
string are falsy. -/
def jsOrStr (v : Option String) (d : String) : String :=
  match v with
  | none => d
  | some s => if s = "" then d else s

/-- The options after api.js generate has applied defaults and the upper
clamp (lines 144-152 of src/api.js):
  options.width = options.width || 1024;
  options.height = options.height || 768;
  options.delay = options.delay || 0;
  options.userAgent = options.userAgent || ;
  if (options.delay > 10000) options.delay = 10000. -/
structure EffectiveOptions where
  width : Int
  height : Int
  delay : Int
  userAgent : String
  full : Bool
deriving DecidableEq

def normalizeOptions (o : RenderOptions) : EffectiveOptions :=
  ⟨jsOrInt o.width 1024, jsOrInt o.height 768,
   if 10000 < jsOrInt o.delay 0 then 10000 else jsOrInt o.delay 0,
   jsOrStr o.userAgent "", o.full⟩

/-- A shotSize dimension in the webshot options: the string window or the
string all. -/
inductive ShotDim where
  | window
  | all
deriving DecidableEq

/-- The webshotOptions object built by screengrab (src/api.js lines 170-185). -/
structure WebshotOptions where
  renderDelay : Int
  windowWidth : Int
  windowHeight : Int
  shotWidth : ShotDim
  shotHeight : ShotDim
  userAgent : String
  ignoreSslErrors : Bool
  sslProtocol : String
deriving DecidableEq

def mkWebshotOptions (e : EffectiveOptions) : WebshotOptions :=
  ⟨e.delay, e.width, e.height, ShotDim.window,
   if e.full then ShotDim.all else ShotDim.window,
   e.userAgent, true, "any"⟩

/-- One invocation of the webshot rendering engine: webshot is called with the
url, the freshly allocated temp path, and the webshot options. -/
structure RenderCall where
  url : String
  tempPath : String
  opts : WebshotOptions
deriving DecidableEq

/-- An error object passed to a callback. The JS code uses the field name msg
for some errors and message for others; no claim depends on that field-name
inconsistency, so both are modelled by the single msg field. -/
structure ApiError where
  code : Int
  msg : String
deriving DecidableEq

/-- Environment of collaborator oracles for one request:
  s3dir        : process.env.AWS_S3_DIRECTORY
  bucket       : process.env.AWS_S3_BUCKET
  getObjectErr : when some m, the s3.getObject call inside checkFileExists
                 fails with an error whose code is not NoSuchKey and whose
                 message is m; when none, getObject reports NoSuchKey exactly
                 when the key is absent from the storage state
  renderOk     : outcome of the webshot call
  tempPath     : the scoped temporary path allocated by temp.path
  renderedBytes: content of the rendered file (bytes abstracted as a Nat)
  uploadOk     : outcome of the s3.upload call
  unlinkOk     : outcome of the fs.unlink call
  sign         : what s3.getSignedUrl returns for a bucket and key. -/
structure Env where
  s3dir : String
  bucket : String
  getObjectErr : Option String
  renderOk : Bool
  tempPath : String
  renderedBytes : Nat
  uploadOk : Bool
  unlinkOk : Bool
  sign : String → String → String

/-- Same environment with the fs.unlink outcome replaced. -/
def setUnlink (e : Env) (b : Bool) : Env :=
  ⟨e.s3dir, e.bucket, e.getObjectErr, e.renderOk, e.tempPath,
   e.renderedBytes, e.uploadOk, b, e.sign⟩

/-- Node path.join for the two-argument calls the service makes
(src/api.js line 126: path.join(process.env.AWS_S3_DIRECTORY, name)).
Modelled for arguments that are plain segments without separator or dot
normalization, which is all the service exercises; the empty-argument cases
follow Node: join of d and the empty string is d, join of two empties is a
single dot. -/
def pathJoin (a b : String) : String :=
  if a = "" then (if b = "" then "." else b)
  else if b = "" then a
  else a ++ "/" ++ b

def getS3Key (s3dir name : String) : String :=
  pathJoin s3dir name

/-- The storage collaborator state: a key to byte-content association list.
Later entries are shadowed by earlier ones; an upload prepends. -/
abbrev Storage := List (String × Nat)

/-- checkFileExists (src/api.js lines 103-116): s3.getObject on the key; an
error with code other than NoSuchKey becomes a 500 error carrying the s3
message, a NoSuchKey error means the file does not exist, success means it
exists. -/
def checkFileExists (env : Env) (st : Storage) (key : String) : Except ApiError Bool :=
  match env.getObjectErr with
  | some m => Except.error ⟨500, m⟩
  | none => Except.ok ((st.lookup key).isSome)

/-- Outcome of api.js generate: the callback result together with the list of
webshot invocations made. -/
structure GenOutcome where
  result : Except ApiError String
  renderCalls : List RenderCall

/-- api.js generate (lines 143-155) followed by screengrab (lines 167-194):
defaults and the upper delay clamp are applied, then webshot is invoked once
with the url, a temp path and the webshot options; a webshot error becomes a
500 unable-to-take-a-screenshot error, otherwise the temp path is returned. -/
def apiGenerate (env : Env) (url : String) (o : RenderOptions) : GenOutcome :=
  ⟨if env.renderOk then Except.ok env.tempPath
   else Except.error ⟨500, "Unable to take a screenshot"⟩,
   [⟨url, env.tempPath, mkWebshotOptions (normalizeOptions o)⟩]⟩

/-- The arguments of new Date(2035, 1, 1) in the upload parameters (JS months
are zero-indexed, so this is the fixed date February 1 2035). -/
structure JsDate where
  year : Int
  monthIndex : Int
  day : Int
deriving DecidableEq

/-- The parameter object of one s3.upload call (src/api.js lines 45-52). -/
structure UploadParams where
  bodyPath : String
  bucket : String
  cacheControl : String
  contentType : String
  expires : JsDate
  key : String
deriving DecidableEq

/-- Outcome of api.js store: the callback result (none is the success
callback with no arguments) plus the traces of every collaborator call and
the final storage state. unlinkFailures records unlink calls whose own
callback received an error. -/
structure StoreOutcome where
  result : Option ApiError
  existsChecks : List String
  renderCalls : List RenderCall
  uploads : List UploadParams
  unlinkCalls : List String
  unlinkFailures : List String
  finalState : Storage

/-- api.js store (lines 29-66): check whether the name is free; on a storage
error or an existing name, fail without rendering or uploading; otherwise
generate the image, upload it under getS3Key(name) with the fixed cache
headers, delete the local file whatever the upload outcome, and report an
upload failure as a 500 error while ignoring any unlink failure. -/
def apiStore (env : Env) (st : Storage) (name url : String) (o : RenderOptions) :
    StoreOutcome :=
  let key := getS3Key env.s3dir name
  match checkFileExists env st key with
  | Except.error e => ⟨some e, [key], [], [], [], [], st⟩
  | Except.ok true =>
      ⟨some ⟨400, "A URL by that name already exists"⟩, [key], [], [], [], [], st⟩
  | Except.ok false =>
      let g := apiGenerate env url o
      match g.result with
      | Except.error e => ⟨some e, [key], g.renderCalls, [], [], [], st⟩
      | Except.ok imagePath =>
          let up : UploadParams :=
            ⟨imagePath, env.bucket, "max-age=315360000", "image/jpeg",
             ⟨2035, 1, 1⟩, key⟩
          let st2 := if env.uploadOk then (key, env.renderedBytes) :: st else st
          let fails := if env.unlinkOk then [] else [imagePath]
          if env.uploadOk then
            ⟨none, [key], g.renderCalls, [up], [imagePath], fails, st2⟩
          else
            ⟨some ⟨500, "Unable to upload the rendered image of the website to S3"⟩,
             [key], g.renderCalls, [up], [imagePath], fails, st2⟩

/-- api.js getStoredImageUrl (lines 76-92): existence check, a 404 error when
the name is unknown, otherwise the signed url for the key. There is no
validation of the name. -/
def getStoredImageUrl (env : Env) (st : Storage) (name : String) :
    Except ApiError String :=
  let key := getS3Key env.s3dir name
  match checkFileExists env st key with
  | Except.error e => Except.error e
  | Except.ok false => Except.error ⟨404, "A URL by that name does not exist"⟩
  | Except.ok true => Except.ok (env.sign env.bucket key)

/-- Scheme characters accepted by the legacy Node url.parse protocol pattern
(letters, digits, plus, minus, dot). -/
def isSchemeChar (c : Char) : Bool :=
  c.isAlpha || c.isDigit || c == '+' || c == '-' || c == '.'

/-- Characters ending the host portion of an authority: path, query, fragment
or port delimiters. -/
def isHostEnd (c : Char) : Bool :=
  c == '/' || c == '?' || c == '#' || c == ':'

/-- The fields of the legacy Node url.parse result used by the handlers. -/
structure UrlParts where
  protocol : Option String
  hostname : Option String
  pathname : Option String
deriving DecidableEq

/-- Pathname portion of a character remainder: everything up to a query or
fragment delimiter, or null when empty. -/
def pathOf (cs : List Char) : Option String :=
  let p := cs.takeWhile (fun c => c != '?' && c != '#')
  if p.isEmpty then none else some (String.mk p)

/-- Legacy Node url.parse restricted to the fields the handlers read
(protocol, hostname, pathname). A protocol is a nonempty run of scheme
characters followed by a colon, lowercased; when the protocol is followed by
two slashes the host is everything up to a slash, query, fragment or port,
lowercased, and the pathname starts at the following slash; without slashes
there is no hostname. Userinfo and path normalization are not modelled: the
service never passes urls that use them. -/
def parseUrl (s : String) : UrlParts :=
  let cs := s.toList
  let run := cs.takeWhile isSchemeChar
  match run, cs.drop run.length with
  | _ :: _, ':' :: afterColon =>
      let proto := String.mk (run.map Char.toLower) ++ ":"
      (match afterColon with
       | '/' :: '/' :: afterSlashes =>
           let host := afterSlashes.takeWhile (fun c => !(isHostEnd c))
           let afterHost := afterSlashes.drop host.length
           let afterPort :=
             match afterHost with
             | ':' :: t => t.dropWhile (fun c => c != '/' && c != '?' && c != '#')
             | other => other
           ⟨some proto, some (String.mk (host.map Char.toLower)), pathOf afterPort⟩
       | _ => ⟨some proto, none, pathOf afterColon⟩)
  | _, _ => ⟨none, none, pathOf cs⟩

/-- JS word character for the regex class backslash-w: ASCII letters, digits
and the underscore. -/
def isWordChar (c : Char) : Bool :=
  c.isAlpha || c.isDigit || c == '_'

/-- The JS expression s.replace of the global non-word class with an
underscore: every non-word character is replaced by one underscore. -/
def replaceNonWord (s : String) : String :=
  String.mk (s.toList.map (fun c => if isWordChar c then c else '_'))

/-- The JS expression s.replace of the non-global anchored underscore pattern
with the empty string: at most ONE trailing underscore is removed. -/
def trimOneTrailingUnderscore (s : String) : String :=
  match s.toList.reverse with
  | '_' :: t => String.mk t.reverse
  | _ => s

/-- Removal of every trailing underscore; used only to state what the claim
text describes, for comparison against the code. -/
def trimAllTrailingUnderscores (s : String) : String :=
  String.mk ((s.toList.reverse.dropWhile (fun c => c == '_')).reverse)

/-- Display-name transform as the claim words it: the host and path with all
non-word characters turned to underscores and trailing underscores trimmed,
suffixed with the png extension. Stated from the claim text, not from the
code, to be compared with the code transform. -/
def claimDerivedName (host pathname : String) : String :=
  trimAllTrailingUnderscores (replaceNonWord host ++ replaceNonWord pathname) ++ ".png"

/-- Display-name transform as the code computes it (src/unnamed/part_000
lines 89-94): each non-word character of the host and of the path becomes an
underscore, at most one trailing underscore is removed from the transformed
path, the transformed path is appended only when nonempty, then the png
extension. -/
def codeDerivedName (host pathname : String) : String :=
  let imageName := replaceNonWord host
  let pathName := trimOneTrailingUnderscore (replaceNonWord pathname)
  (if pathName != "" then imageName ++ pathName else imageName) ++ ".png"

/-- An HTTP response produced by a handler: res.send with status and body,
res.send with the store success payload, res.download of a file under a
display name, res.redirect, or an uncaught exception (the generate handler
dereferences pathname, which legacy url.parse leaves null for urls without a
path). -/
inductive HttpRes where
  | send (status : Int) (body : String)
  | sendUrl (status : Int) (fetchPath : String)
  | download (path : String) (filename : String)
  | redirect (url : String)
  | exn (msg : String)
deriving DecidableEq

/-- Request parameters of the generate route: the url parameter (undefined
when absent) and the options object the handler builds from the remaining
parameters. -/
structure GenRequest where
  url : Option String
  opts : RenderOptions

/-- Outcome of the generate route handler. -/
structure HandlerGenOutcome where
  response : HttpRes
  renderCalls : List RenderCall
  unlinkCalls : List String

/-- Route handler generate (src/unnamed/part_000 lines 61-100): reject a
missing url, then a url without protocol, then one without hostname; then
call api generate, sending its error through, or downloading the rendered
file under the derived display name and deleting it afterwards. -/
def handlerGenerate (env : Env) (req : GenRequest) : HandlerGenOutcome :=
  if isFalsy req.url then ⟨HttpRes.send 400 "Missing url", [], []⟩
  else
    let url := req.url.getD ""
    let p := parseUrl url
    if isFalsy p.protocol then
      ⟨HttpRes.send 400 "Invalid url, missing protocol", [], []⟩
    else if isFalsy p.hostname then
      ⟨HttpRes.send 400 "Invalid url, missing hostname", [], []⟩
    else
      let g := apiGenerate env url req.opts
      match g.result with
      | Except.error e => ⟨HttpRes.send e.code e.msg, g.renderCalls, []⟩
      | Except.ok path =>
          match p.hostname, p.pathname with
          | some host, some pn =>
              ⟨HttpRes.download path (codeDerivedName host pn), g.renderCalls, [path]⟩
          | some _, none =>
              ⟨HttpRes.exn "TypeError: cannot read replace of null", g.renderCalls, []⟩
          | none, _ =>
              ⟨HttpRes.exn "unreachable: hostname checked truthy", g.renderCalls, []⟩

/-- Request parameters of the store route. -/
structure StoreRequest where
  name : Option String
  url : Option String
  opts : RenderOptions

/-- Outcome of the store route handler. -/
structure HandlerStoreOutcome where
  response : HttpRes
  existsChecks : List String
  renderCalls : List RenderCall
  uploads : List UploadParams
  unlinkCalls : List String
  finalState : Storage

/-- Route handler store (src/unnamed/part_000 lines 9-42): reject a missing
name, then a missing url, then a url without protocol, then one without
hostname; only then call api store, mapping its error to res.send and its
success to the fetch path payload. -/
def handlerStore (env : Env) (st : Storage) (req : StoreRequest) :
    HandlerStoreOutcome :=
  if isFalsy req.name then ⟨HttpRes.send 400 "Missing name", [], [], [], [], st⟩
  else if isFalsy req.url then ⟨HttpRes.send 400 "Missing url", [], [], [], [], st⟩
  else
    let url := req.url.getD ""
    let p := parseUrl url
    if isFalsy p.protocol then
      ⟨HttpRes.send 400 "Invalid url, missing protocol", [], [], [], [], st⟩
    else if isFalsy p.hostname then
      ⟨HttpRes.send 400 "Invalid url, missing hostname", [], [], [], [], st⟩
    else
      let name := req.name.getD ""
      let o := apiStore env st name url req.opts
      match o.result with
      | some e =>
          ⟨HttpRes.send e.code e.msg, o.existsChecks, o.renderCalls, o.uploads,
           o.unlinkCalls, o.finalState⟩
      | none =>
          ⟨HttpRes.sendUrl 200 ("/f/" ++ name), o.existsChecks, o.renderCalls,
           o.uploads, o.unlinkCalls, o.finalState⟩

/-- Route handler getStoredImage (src/unnamed/part_000 lines 47-56): no
validation at all; the api result is either sent as an error or used as a
redirect target. -/
def handlerGetStoredImage (env : Env) (st : Storage) (name : Option String) :
    HttpRes :=
  match getStoredImageUrl env st (name.getD "") with
  | Except.error e => HttpRes.send e.code e.msg
  | Except.ok url => HttpRes.redirect url

/-- A concrete environment used by witnesses and counterexamples. -/
def defaultEnv : Env :=
  ⟨"webshots", "bucket", none, true, "/tmp/img.png", 7, true, true,
   fun b k => "https://s3.example/" ++ b ++ "/" ++ k⟩

/-- An options object with every field absent. -/
def noOpts : RenderOptions :=
  ⟨none, none, none, none, false⟩

/-- C1: a Store call for a name that already has an object under key
baseDirectory/name fails with the 400 name-conflict error, the Renderer is
never invoked, no upload happens and the storage state is unchanged. -/
theorem store_conflict_leaves_storage_unchanged (env : Env) (st : Storage)
    (name url : String) (o : RenderOptions)
    (hok : env.getObjectErr = none)
    (hex : (st.lookup (getS3Key env.s3dir name)).isSome = true) :
    apiStore env st name url o =
      ⟨some ⟨400, "A URL by that name already exists"⟩,
       [getS3Key env.s3dir name], [], [], [], [], st⟩ := by
  simp only [apiStore, checkFileExists, hok, hex]

theorem store_conflict_leaves_storage_unchanged_witness :
    apiStore defaultEnv [("webshots/taken", 7)] "taken" "http://example.com/" noOpts =
      ⟨some ⟨400, "A URL by that name already exists"⟩,
       ["webshots/taken"], [], [], [], [], [("webshots/taken", 7)]⟩ :=
  store_conflict_leaves_storage_unchanged defaultEnv [("webshots/taken", 7)]
    "taken" "http://example.com/" noOpts rfl (by decide)

/-- C2 counterexample: an explicit delay of minus five is truthy, is not
above 10000, and therefore reaches the Renderer unchanged, outside the
claimed interval from zero to ten thousand. -/
theorem generate_negative_delay_counterexample :
    ((apiGenerate defaultEnv "http://example.com/"
        ⟨none, none, some (-5), none, false⟩).renderCalls.map
      (fun c => c.opts.renderDelay)) = [-5] ∧ ¬ (0 ≤ (-5 : Int)) :=
  ⟨rfl, by decide⟩

/-- C2 amended: the effective delay passed to the Renderer is at most 10000;
it defaults to 0 when absent, is clamped to exactly 10000 when the supplied
value exceeds 10000, and any other nonzero supplied value, negative values
included, is passed through unchanged: there is no lower clamp. -/
theorem generate_delay_clamp_amended (env : Env) (url : String) (o : RenderOptions) :
    (apiGenerate env url o).renderCalls.map (fun c => c.opts.renderDelay) =
      [(normalizeOptions o).delay] ∧
    (normalizeOptions o).delay ≤ 10000 ∧
    (o.delay = none → (normalizeOptions o).delay = 0) ∧
    (∀ v : Int, o.delay = some v → 10000 < v → (normalizeOptions o).delay = 10000) ∧
    (∀ v : Int, o.delay = some v → v ≤ 10000 → v ≠ 0 →
      (normalizeOptions o).delay = v) := by
  refine ⟨rfl, ?_, ?_, ?_, ?_⟩
  · show (if 10000 < jsOrInt o.delay 0 then 10000 else jsOrInt o.delay 0) ≤ 10000
    split <;> omega
  · intro h
    simp only [normalizeOptions, jsOrInt, h]
    decide
  · intro v hv hgt
    simp only [normalizeOptions, jsOrInt, hv]
    split_ifs <;> omega
  · intro v hv hle hne
    simp only [normalizeOptions, jsOrInt, hv]
    split_ifs <;> omega

theorem generate_delay_clamp_amended_witness :
    (normalizeOptions ⟨none, none, some 20000, none, false⟩).delay = 10000 :=
  (generate_delay_clamp_amended defaultEnv "http://example.com/"
    ⟨none, none, some 20000, none, false⟩).2.2.2.1 20000 rfl (by decide)

/-- C3 counterexample: with an empty storage namespace, a fetch for the empty
name fails with the 404 not-found error, not with a 400 validation error:
the code never validates the name. -/
theorem getStoredImageUrl_empty_name_counterexample :
    getStoredImageUrl defaultEnv [] "" =
      Except.error ⟨404, "A URL by that name does not exist"⟩ ∧
    (404 : Int) ≠ 400 :=
  ⟨rfl, by decide⟩

/-- C3 amended: getStoredImageUrl performs no name validation; any name, the
empty one included, goes straight to the existence check (the key for the
empty name degenerating to the base directory itself): when no object exists
under key baseDirectory/name the call fails with the 404 not-found error,
otherwise it returns the signed read url for that key. -/
theorem getStoredImageUrl_amended (env : Env) (st : Storage) (name : String)
    (hok : env.getObjectErr = none) :
    (st.lookup (getS3Key env.s3dir name) = none →
      getStoredImageUrl env st name =
        Except.error ⟨404, "A URL by that name does not exist"⟩) ∧
    (∀ b : Nat, st.lookup (getS3Key env.s3dir name) = some b →
      getStoredImageUrl env st name =
        Except.ok (env.sign env.bucket (getS3Key env.s3dir name))) ∧
    getS3Key env.s3dir "" = (if env.s3dir = "" then "." else env.s3dir) := by
  refine ⟨?_, ?_, ?_⟩
  · intro h
    simp only [getStoredImageUrl, checkFileExists, hok, h, Option.isSome_none]
  · intro b h
    simp only [getStoredImageUrl, checkFileExists, hok, h, Option.isSome_some]
  · by_cases h : env.s3dir = "" <;> simp [getS3Key, pathJoin, h]

theorem getStoredImageUrl_amended_witness :
    getStoredImageUrl defaultEnv [] "missing" =
      Except.error ⟨404, "A URL by that name does not exist"⟩ :=
  (getStoredImageUrl_amended defaultEnv [] "missing" rfl).1 rfl

/-- C4: when width, height, userAgent or delay is absent from the options,
generate invokes the Renderer with 1024, 768, the empty string and 0
respectively; store reaches the Renderer through the same call, so it
performs the identical invocation. -/
theorem generate_option_defaults (env : Env) (st : Storage) (name url : String)
    (o : RenderOptions) :
    (apiGenerate env url o).renderCalls =
      [⟨url, env.tempPath, mkWebshotOptions (normalizeOptions o)⟩] ∧
    (o.width = none → (normalizeOptions o).width = 1024) ∧
    (o.height = none → (normalizeOptions o).height = 768) ∧
    (o.userAgent = none → (normalizeOptions o).userAgent = "") ∧
    (o.delay = none → (normalizeOptions o).delay = 0) ∧
    (env.getObjectErr = none → st.lookup (getS3Key env.s3dir name) = none →
      (apiStore env st name url o).renderCalls = (apiGenerate env url o).renderCalls) := by
  refine ⟨rfl, ?_, ?_, ?_, ?_, ?_⟩
  · intro h; simp [normalizeOptions, jsOrInt, h]
  · intro h; simp [normalizeOptions, jsOrInt, h]
  · intro h; simp [normalizeOptions, jsOrStr, h]
  · intro h; simp only [normalizeOptions, jsOrInt, h]; decide
  · intro h1 h2
    simp only [apiStore, checkFileExists, h1, h2, Option.isSome_none]
    cases hu : env.uploadOk <;> cases hr : env.renderOk <;>
      simp [apiGenerate, hr, hu]

theorem generate_option_defaults_witness :
    (normalizeOptions noOpts).width = 1024 ∧
    (normalizeOptions noOpts).height = 768 ∧
    (normalizeOptions noOpts).userAgent = "" ∧
    (normalizeOptions noOpts).delay = 0 := by
  have h := generate_option_defaults defaultEnv [] "site1" "http://example.com/" noOpts
  exact ⟨h.2.1 rfl, h.2.2.1 rfl, h.2.2.2.1 rfl, h.2.2.2.2.1 rfl⟩

/-- C5 counterexample: a Store request whose name taken is already in use and
whose url is the invalid not-a-url string gets the missing-protocol
validation response, not the name-conflict response, and the storage
existence check is never performed: url validation comes first. -/
theorem store_order_counterexample :
    handlerStore defaultEnv [("webshots/taken", 7)]
        ⟨some "taken", some "not-a-url", noOpts⟩ =
      ⟨HttpRes.send 400 "Invalid url, missing protocol", [], [], [], [],
       [("webshots/taken", 7)]⟩ ∧
    HttpRes.send 400 "Invalid url, missing protocol" ≠
      HttpRes.send 400 "A URL by that name already exists" :=
  ⟨rfl, by decide⟩

/-- C5 amended: in the store route the url validation precedes the
name-in-use existence check: every Store request whose url is syntactically
invalid, whether it lacks a protocol or has a protocol but lacks a hostname,
is answered with the corresponding validation error and the storage
collaborator is never consulted, whatever the name. -/
theorem store_url_validation_first (env : Env) (st : Storage) (req : StoreRequest)
    (hname : isFalsy req.name = false)
    (hurl : isFalsy req.url = false) :
    (isFalsy (parseUrl (req.url.getD "")).protocol = true →
      handlerStore env st req =
        ⟨HttpRes.send 400 "Invalid url, missing protocol", [], [], [], [], st⟩) ∧
    (isFalsy (parseUrl (req.url.getD "")).protocol = false →
      isFalsy (parseUrl (req.url.getD "")).hostname = true →
      handlerStore env st req =
        ⟨HttpRes.send 400 "Invalid url, missing hostname", [], [], [], [], st⟩) := by
  constructor
  · intro hp
    simp only [handlerStore, hname, hurl, hp]
    simp
  · intro hp hh
    simp only [handlerStore, hname, hurl, hp, hh]
    simp

theorem store_url_validation_first_witness :
    handlerStore defaultEnv [("webshots/taken", 7)]
        ⟨some "taken", some "no-protocol-here", noOpts⟩ =
      ⟨HttpRes.send 400 "Invalid url, missing protocol", [], [], [], [],
       [("webshots/taken", 7)]⟩ ∧
    handlerStore defaultEnv [("webshots/taken", 7)]
        ⟨some "taken", some "http://", noOpts⟩ =
      ⟨HttpRes.send 400 "Invalid url, missing hostname", [], [], [], [],
       [("webshots/taken", 7)]⟩ :=
  ⟨(store_url_validation_first defaultEnv [("webshots/taken", 7)]
      ⟨some "taken", some "no-protocol-here", noOpts⟩ rfl rfl).1 (by decide),
   (store_url_validation_first defaultEnv [("webshots/taken", 7)]
      ⟨some "taken", some "http://", noOpts⟩ rfl rfl).2 (by decide) (by decide)⟩

/-- C6: a successful render inside store uploads exactly under key
baseDirectory/name with content type image/jpeg, the max-age=315360000 cache
directive, which is ten years of seconds, and the fixed far-future expiry
date built from the arguments 2035, 1, 1, whatever the upload outcome. -/
theorem store_upload_parameters (env : Env) (st : Storage) (name url : String)
    (o : RenderOptions)
    (h1 : env.getObjectErr = none)
    (h2 : st.lookup (getS3Key env.s3dir name) = none)
    (h3 : env.renderOk = true) :
    (apiStore env st name url o).uploads =
      [⟨env.tempPath, env.bucket, "max-age=315360000", "image/jpeg",
        ⟨2035, 1, 1⟩, getS3Key env.s3dir name⟩] ∧
    (315360000 : Nat) = 10 * 365 * 24 * 60 * 60 := by
  constructor
  · simp only [apiStore, checkFileExists, h1, h2, Option.isSome_none]
    cases hu : env.uploadOk <;> simp [apiGenerate, h3, hu]
  · norm_num

theorem store_upload_parameters_witness :
    (apiStore defaultEnv [] "site1" "http://example.com/" noOpts).uploads =
      [⟨"/tmp/img.png", "bucket", "max-age=315360000", "image/jpeg",
        ⟨2035, 1, 1⟩, "webshots/site1"⟩] :=
  (store_upload_parameters defaultEnv [] "site1" "http://example.com/" noOpts
    rfl rfl rfl).1

/-- C7: once store reaches the upload, the local rendered file is deleted on
every path whatever the upload outcome; an upload failure yields the 500
unable-to-upload error even when the delete itself fails, and a delete
failure alone never produces an error for the caller. -/
theorem store_scoped_cleanup (env : Env) (st : Storage) (name url : String)
    (o : RenderOptions)
    (h1 : env.getObjectErr = none)
    (h2 : st.lookup (getS3Key env.s3dir name) = none)
    (h3 : env.renderOk = true) :
    ∀ b : Bool,
      (apiStore (setUnlink env b) st name url o).unlinkCalls = [env.tempPath] ∧
      (env.uploadOk = false →
        (apiStore (setUnlink env b) st name url o).result =
          some ⟨500, "Unable to upload the rendered image of the website to S3"⟩) ∧
      (env.uploadOk = true →
        (apiStore (setUnlink env b) st name url o).result = none) := by
  intro b
  simp only [apiStore, checkFileExists, setUnlink, h1, h2, Option.isSome_none]
  cases hu : env.uploadOk <;> cases b <;> simp [apiGenerate, h3, hu]

theorem store_scoped_cleanup_witness :
    (apiStore (setUnlink defaultEnv false) [] "site1" "http://example.com/"
        noOpts).unlinkCalls = ["/tmp/img.png"] ∧
    (apiStore (setUnlink defaultEnv false) [] "site1" "http://example.com/"
        noOpts).result = none := by
  have h := store_scoped_cleanup defaultEnv [] "site1" "http://example.com/"
    noOpts rfl rfl rfl false
  exact ⟨h.1, h.2.2 rfl⟩

/-- C8: a Generate request whose url is missing, lacks a protocol or lacks a
hostname is answered with a 400 response and the Renderer observes zero
invocations. -/
theorem generate_invalid_url_rejected (env : Env) (req : GenRequest)
    (h : isFalsy req.url = true ∨
         isFalsy (parseUrl (req.url.getD "")).protocol = true ∨
         isFalsy (parseUrl (req.url.getD "")).hostname = true) :
    (handlerGenerate env req).renderCalls = [] ∧
    ∃ m : String, (handlerGenerate env req).response = HttpRes.send 400 m := by
  cases hu : isFalsy req.url
  · cases hp : isFalsy (parseUrl (req.url.getD "")).protocol
    · cases hh : isFalsy (parseUrl (req.url.getD "")).hostname
      · rcases h with h | h | h <;> simp_all
      · refine ⟨?_, "Invalid url, missing hostname", ?_⟩ <;>
          simp [handlerGenerate, hu, hp, hh]
    · refine ⟨?_, "Invalid url, missing protocol", ?_⟩ <;>
        simp [handlerGenerate, hu, hp]
  · refine ⟨?_, "Missing url", ?_⟩ <;> simp [handlerGenerate, hu]

theorem generate_invalid_url_rejected_witness :
    (handlerGenerate defaultEnv ⟨some "not-a-url", noOpts⟩).renderCalls = [] ∧
    ∃ m : String, (handlerGenerate defaultEnv ⟨some "not-a-url", noOpts⟩).response =
      HttpRes.send 400 m :=
  generate_invalid_url_rejected defaultEnv ⟨some "not-a-url", noOpts⟩
    (Or.inr (Or.inl (by decide)))

/-- C9 counterexample: for the url http slashes x.com slash a slash slash the
code derives the display name with ONE trailing underscore kept, while the
transform the claim describes, trimming all trailing underscores, yields a
different name. -/
theorem generate_display_name_counterexample :
    (handlerGenerate defaultEnv ⟨some "http://x.com/a//", noOpts⟩).response =
      HttpRes.download "/tmp/img.png" "x_com_a_.png" ∧
    claimDerivedName "x.com" "/a//" = "x_com_a.png" ∧
    ("x_com_a_.png" : String) ≠ "x_com_a.png" :=
  ⟨by decide, by decide, by decide⟩

/-- C9 amended: the derived display name is the host and path with each
non-word character replaced by an underscore, AT MOST ONE trailing
underscore removed from the transformed path, the transformed path appended
only when nonempty, suffixed with the png extension; for the okfn url the
result is exactly okfn_org_about_how_we_can_help_you.png, as the witness
evaluates. -/
theorem generate_display_name_amended (env : Env) (url pr host pn : String)
    (opts : RenderOptions)
    (hp : parseUrl url = ⟨some pr, some host, some pn⟩)
    (hpr : pr ≠ "") (hh : host ≠ "")
    (hr : env.renderOk = true) :
    (handlerGenerate env ⟨some url, opts⟩).response =
      HttpRes.download env.tempPath (codeDerivedName host pn) := by
  have hne : url ≠ "" := by
    intro h0
    rw [h0] at hp
    exact Option.noConfusion (congrArg UrlParts.protocol hp)
  simp [handlerGenerate, hp, isFalsy, hne, hpr, hh, apiGenerate, hr]

theorem generate_display_name_amended_witness :
    (handlerGenerate defaultEnv
        ⟨some "http://okfn.org/about/how-we-can-help-you/", noOpts⟩).response =
      HttpRes.download "/tmp/img.png" "okfn_org_about_how_we_can_help_you.png" := by
  have h := generate_display_name_amended defaultEnv
    "http://okfn.org/about/how-we-can-help-you/" "http:" "okfn.org"
    "/about/how-we-can-help-you/" noOpts (by decide) (by decide) (by decide) rfl
  exact h.trans (by decide)

/-- C10: option fields that are present but falsy behave exactly as absent
ones: the whole generate outcome for explicit zero width, zero height, zero
delay and empty userAgent equals the outcome for absent fields, the Renderer
sees the 1024 by 768 viewport with delay 0 and empty userAgent rather than a
zero-sized one, and no error arises from the options. -/
theorem generate_falsy_options_defaulted (env : Env) (url : String) (full : Bool) :
    apiGenerate env url ⟨some 0, some 0, some 0, some "", full⟩ =
      apiGenerate env url ⟨none, none, none, none, full⟩ ∧
    (apiGenerate env url ⟨some 0, some 0, some 0, some "", full⟩).renderCalls.map
        (fun c => (c.opts.windowWidth, c.opts.windowHeight, c.opts.renderDelay,
                   c.opts.userAgent)) = [(1024, 768, 0, "")] ∧
    (env.renderOk = true →
      (apiGenerate env url ⟨some 0, some 0, some 0, some "", full⟩).result =
        Except.ok env.tempPath) := by
  refine ⟨rfl, rfl, ?_⟩
  intro h
  simp [apiGenerate, h]

theorem generate_falsy_options_defaulted_witness :
    (apiGenerate defaultEnv "http://example.com/"
        ⟨some 0, some 0, some 0, some "", false⟩).result =
      Except.ok "/tmp/img.png" :=
  (generate_falsy_options_defaulted defaultEnv "http://example.com/" false).2.2 rfl

end WebshotServer
